import Mathlib

/-!
Shallow embedding of the VBAN protocol engine of VM-Remote
(src/linux-app/voicemeeter_deck.py and src/backend/main.py).

Payloads and packets are modelled as `List Nat` of byte values; Python
ints are modelled as `Int` (indices, frame counter) or `Nat` (byte
values); the float level values `raw * 0.01` are modelled as rationals.
-/

set_option maxRecDepth 100000

namespace VMRemote

/-! ## Byte-level readers (struct.unpack_from "<h" / "<I") -/

/-- Read `data[i]`, with reads past the end defaulting to 0 (in all uses the
length checks of the source guarantee the index is in range). -/
def byteAt (data : List Nat) (i : Nat) : Nat := data.getD i 0

/-- Little-endian unsigned 16-bit read at `off`. -/
def readU16LE (data : List Nat) (off : Nat) : Nat :=
  byteAt data off + 256 * byteAt data (off + 1)

/-- Little-endian signed 16-bit read at `off` (struct format "<h"). -/
def readI16LE (data : List Nat) (off : Nat) : Int :=
  let u := readU16LE data off
  if u < 32768 then (u : Int) else (u : Int) - 65536

/-- Little-endian unsigned 32-bit read at `off` (struct format "<I"). -/
def readU32LE (data : List Nat) (off : Nat) : Nat :=
  byteAt data off + 256 * byteAt data (off + 1) +
    65536 * byteAt data (off + 2) + 16777216 * byteAt data (off + 3)

/-- The four little-endian bytes of a 32-bit value (struct.pack "<I"). -/
def u32LEBytes (c : Nat) : List Nat :=
  [c % 256, c / 256 % 256, c / 65536 % 256, c / 16777216 % 256]

/-! ## Telemetry snapshot (`VBANRTPacketListener` level state) -/

/-- The mutable level/state fields of `VBANRTPacketListener`.
`input_levels`/`output_levels` hold the values the source stores:
floats `raw * 0.01`, modelled as rationals. -/
structure RTSnapshot where
  voicemeeter_type : Option Nat
  input_levels : List ℚ
  output_levels : List ℚ
  strip_states : List Nat
  bus_states : List Nat
  deriving Repr, DecidableEq

/-- Initial snapshot built in `VBANRTPacketListener.__init__`. -/
def initSnapshot : RTSnapshot :=
  { voicemeeter_type := none
    input_levels := List.replicate 34 0
    output_levels := List.replicate 64 0
    strip_states := List.replicate 8 0
    bus_states := List.replicate 8 0 }

/-- Source `VBANRTPacketListener._parse_rt_packet`: decode one telemetry
payload (the datagram with its 28-byte header already stripped) into a
snapshot update. Payloads shorter than 212 bytes are rejected and the
snapshot is returned unchanged. Levels are multiplied by 0.01 before
being stored, exactly as the source does. -/
def parse_rt_packet (data : List Nat) (s : RTSnapshot) : RTSnapshot :=
  if data.length < 212 then s
  else
    let vm_type := byteAt data 0
    let input_levels := (List.range 34).map fun i => readI16LE data (16 + 2 * i)
    let output_levels := (List.range 64).map fun i => readI16LE data (84 + 2 * i)
    let has_states := 212 + 4 + 32 + 32 ≤ data.length
    { voicemeeter_type := some vm_type
      input_levels := input_levels.map fun (l : Int) => (l : ℚ) * (1 / 100)
      output_levels := output_levels.map fun (l : Int) => (l : ℚ) * (1 / 100)
      strip_states :=
        if has_states then (List.range 8).map (fun i => readU32LE data (216 + 4 * i))
        else s.strip_states
      bus_states :=
        if has_states then (List.range 8).map (fun i => readU32LE data (248 + 4 * i))
        else s.bus_states }

/-! ## Channel ranges and level aggregation -/

/-- Source `VBANRTPacketListener._strip_channel_range`: map a strip index to a
`(start, count)` slice of `input_levels`, branching on the detected
voicemeeter type. -/
def strip_channel_range (vm_type : Option Nat) (index : Int) : Int × Int :=
  if vm_type = some 1 then
    if index < 2 then (index * 2, 2) else (4 + (index - 2) * 8, 8)
  else if vm_type = some 2 then
    if index < 3 then (index * 2, 2) else (6 + (index - 3) * 8, 8)
  else if vm_type = some 3 ∨ vm_type = some 6 then
    if index < 5 then (index * 2, 2) else (10 + (index - 5) * 8, 8)
  else (index * 2, 2)

/-- Source `VBANRTPacketListener._bus_channel_range`. -/
def bus_channel_range (index : Int) : Int × Int := (index * 8, 8)

/-- Python `max` over a non-empty list (left fold over the tail). The
empty case is unreachable in the source and mapped to -100. -/
def listMax : List ℚ → ℚ
  | [] => -100
  | x :: xs => xs.foldl max x

/-- Source `VBANRTPacketListener._level_from_range`: aggregate the levels of a
slice, returning -100.0 when the slice is empty or out of range. -/
def level_from_range (levels : List ℚ) (base count : Int) : ℚ :=
  if base < 0 ∨ (levels.length : Int) ≤ base then -100
  else
    let e := min (base + count) (levels.length : Int)
    if e ≤ base then -100
    else listMax ((levels.drop base.toNat).take (e - base).toNat)

/-- Source `VBANRTPacketListener.get_input_level`. -/
def get_input_level (s : RTSnapshot) (index : Int) : ℚ :=
  let r := strip_channel_range s.voicemeeter_type index
  level_from_range s.input_levels r.1 r.2

/-- Source `VBANRTPacketListener.get_output_level`. -/
def get_output_level (s : RTSnapshot) (index : Int) : ℚ :=
  let r := bus_channel_range index
  level_from_range s.output_levels r.1 r.2

/-! ## Receive loop (`VBANRTPacketListener._listen_thread`), one iteration -/

/-- The signature constant b"VBAN". -/
def vbanSignature : List Nat := [0x56, 0x42, 0x41, 0x4E]

/-- One iteration of the receive loop on one datagram: header checks,
then `_parse_rt_packet` on the payload past the 28-byte header;
anything that fails a check is discarded and the snapshot unchanged. -/
def listen_step (s : RTSnapshot) (data : List Nat) : RTSnapshot :=
  if 28 ≤ data.length then
    if data.take 4 = vbanSignature then
      let protocol := byteAt data 4 &&& 0xE0
      let service_type := byteAt data 6
      if protocol = 0x60 ∧ service_type = 33 then
        parse_rt_packet (data.drop 28) s
      else s
    else s
  else s

/-- Header validity check of the receive loop, as a Bool. -/
def vban_frame_ok (data : List Nat) : Bool :=
  decide (28 ≤ data.length) && decide (data.take 4 = vbanSignature) &&
    decide (byteAt data 4 &&& 0xE0 = 0x60) && decide (byteAt data 6 = 33)

theorem listen_step_eq (s : RTSnapshot) (data : List Nat) :
    listen_step s data =
      if vban_frame_ok data then parse_rt_packet (data.drop 28) s else s := by
  unfold listen_step vban_frame_ok
  by_cases h1 : 28 ≤ data.length <;>
    by_cases h2 : data.take 4 = vbanSignature <;>
      by_cases h3 : byteAt data 4 &&& 0xE0 = 0x60 <;>
        by_cases h4 : byteAt data 6 = 33 <;>
          simp [h1, h2, h3, h4]

/-! ## Outgoing packets (`VBANSender`) -/

/-- The 16-byte stream-name field: UTF-8 bytes of the name truncated to
16 bytes, written into a zero-initialised bytearray (so shorter names
are right-padded with zero bytes). -/
def padTo16 (stream : List Nat) : List Nat :=
  let sb := stream.take 16
  sb ++ List.replicate (16 - sb.length) 0

/-- The 28-byte header written by `VBANSender.send_command`,
`VBANSender.register_rt_packet` and `VBANSender._build_header`:
signature, four protocol bytes, 16-byte stream-name field, and the
frame counter packed little-endian into bytes 24..28. -/
def build_header (protocolByte aux1 aux2 formatByte : Nat) (stream : List Nat)
    (counter : Int) : List Nat :=
  vbanSignature ++ [protocolByte, aux1, aux2, formatByte] ++ padTo16 stream ++
    u32LEBytes counter.toNat

/-- Update `self.frame_counter = (self.frame_counter + 1) % 0xFFFFFFFF`, the
counter update performed after every encoded packet by both senders. -/
def next_frame_counter (c : Int) : Int := (c + 1) % 0xFFFFFFFF

/-- The sender state that outgoing packets read and update. -/
structure SenderState where
  stream : List Nat
  frame_counter : Int
  deriving Repr, DecidableEq

/-- The two packet kinds the engine encodes. -/
inductive PacketKind where
  | text (cmd : List Nat)
  | registration (timeout : Nat)
  deriving Repr, DecidableEq

/-- Encode one outgoing packet and update the frame counter:
`VBANSender.send_command` (header with protocol 0x40 and format 0x10,
followed by the command text) and `VBANSender.register_rt_packet`
(header only, protocol 0x60, service subtype 32 in byte 6, timeout in
byte 7). -/
def sender_send (st : SenderState) (k : PacketKind) : List Nat × SenderState :=
  match k with
  | .text cmd =>
      (build_header 0x40 0 0 0x10 st.stream st.frame_counter ++ cmd,
       { st with frame_counter := next_frame_counter st.frame_counter })
  | .registration timeout =>
      (build_header 0x60 0 32 (timeout % 256) st.stream st.frame_counter,
       { st with frame_counter := next_frame_counter st.frame_counter })

/-! ## Mixer topology resolver -/

/-- Entries of the `MIXER_PROFILES` table. -/
structure MixerProfile where
  strip_labels : List String
  hardware_strips : Nat
  bus_labels : List String
  routing_buses : List (String × String)
  deriving Repr, DecidableEq

def standardProfile : MixerProfile :=
  { strip_labels := ["HW 1", "HW 2", "Virt 1"]
    hardware_strips := 2
    bus_labels := ["A", "B"]
    routing_buses := [("A1", "A"), ("B1", "B")] }

def bananaProfile : MixerProfile :=
  { strip_labels := ["HW 1", "HW 2", "HW 3", "Virt 1", "Virt 2"]
    hardware_strips := 3
    bus_labels := ["A1", "A2", "A3", "B1", "B2"]
    routing_buses := [("A1", "A1"), ("A2", "A2"), ("A3", "A3"), ("B1", "B1"), ("B2", "B2")] }

def potatoProfile : MixerProfile :=
  { strip_labels := ["HW 1", "HW 2", "HW 3", "HW 4", "HW 5", "Virt 1", "Virt 2", "Virt 3"]
    hardware_strips := 5
    bus_labels := ["A1", "A2", "A3", "A4", "A5", "B1", "B2", "B3"]
    routing_buses := [("A1", "A1"), ("A2", "A2"), ("A3", "A3"), ("A4", "A4"),
      ("A5", "A5"), ("B1", "B1"), ("B2", "B2"), ("B3", "B3")] }

/-- The `MIXER_PROFILES` dict lookup. -/
def mixer_profiles (name : String) : Option MixerProfile :=
  if name = "standard" then some standardProfile
  else if name = "banana" then some bananaProfile
  else if name = "potato" then some potatoProfile
  else none

/-- The `VM_TYPE_TO_PROFILE` dict lookup (`.get`, so `none` for a
missing key or an absent device type). -/
def vm_type_to_profile (vm_type : Option Nat) : Option String :=
  match vm_type with
  | none => none
  | some n =>
      if n = 1 then some "standard"
      else if n = 2 then some "banana"
      else if n = 3 then some "potato"
      else if n = 6 then some "potato"
      else none

/-- Source `VoicemeeterDeckApp._resolve_mixer_type`: on the "auto" setting,
the detected profile when `VM_TYPE_TO_PROFILE` recognises the snapshot's
device type, else "banana"; on an explicit setting, that name if it is a
known profile, else "banana". -/
def resolve_mixer_type (setting : String) (vm_type : Option Nat) : String :=
  if setting = "auto" then
    match vm_type_to_profile vm_type with
    | some detected => detected
    | none => "banana"
  else if (mixer_profiles setting).isSome then setting else "banana"

/-! ## Claims -/

/-- C3: for every telemetry payload strictly shorter than 212 bytes,
decode returns rejected, leaving every snapshot field (deviceType,
inputLevels, outputLevels, stripStateBits, busStateBits) exactly as it
was before the call. -/
theorem claim_C3_short_payload_rejected (data : List Nat) (s : RTSnapshot)
    (h : data.length < 212) :
    (parse_rt_packet data s).voicemeeter_type = s.voicemeeter_type ∧
    (parse_rt_packet data s).input_levels = s.input_levels ∧
    (parse_rt_packet data s).output_levels = s.output_levels ∧
    (parse_rt_packet data s).strip_states = s.strip_states ∧
    (parse_rt_packet data s).bus_states = s.bus_states := by
  simp [parse_rt_packet, h]

/-- C3 witness: a concrete 211-byte payload leaves the initial snapshot
unchanged. -/
theorem claim_C3_witness :
    (parse_rt_packet (List.replicate 211 7) initSnapshot).voicemeeter_type =
        initSnapshot.voicemeeter_type ∧
    (parse_rt_packet (List.replicate 211 7) initSnapshot).input_levels =
        initSnapshot.input_levels ∧
    (parse_rt_packet (List.replicate 211 7) initSnapshot).output_levels =
        initSnapshot.output_levels ∧
    (parse_rt_packet (List.replicate 211 7) initSnapshot).strip_states =
        initSnapshot.strip_states ∧
    (parse_rt_packet (List.replicate 211 7) initSnapshot).bus_states =
        initSnapshot.bus_states :=
  claim_C3_short_payload_rejected (List.replicate 211 7) initSnapshot
    (by rw [List.length_replicate]; omega)

/-- C6: resolve maps deviceType 1 to "standard" (2 hardware strips),
2 to "banana" (3 hardware strips, 2 virtual strips, 5 buses), 3 and 6
to "potato" (5 hardware strips), and every other deviceType (including
99 and absent) to the default "banana". -/
theorem claim_C6_resolve_profiles :
    resolve_mixer_type "auto" (some 1) = "standard" ∧
    standardProfile.hardware_strips = 2 ∧
    resolve_mixer_type "auto" (some 2) = "banana" ∧
    bananaProfile.hardware_strips = 3 ∧
    bananaProfile.strip_labels.length - bananaProfile.hardware_strips = 2 ∧
    bananaProfile.bus_labels.length = 5 ∧
    resolve_mixer_type "auto" (some 3) = "potato" ∧
    resolve_mixer_type "auto" (some 6) = "potato" ∧
    potatoProfile.hardware_strips = 5 ∧
    ∀ t : Option Nat, t ≠ some 1 → t ≠ some 2 → t ≠ some 3 → t ≠ some 6 →
      resolve_mixer_type "auto" t = "banana" := by
  refine ⟨rfl, rfl, rfl, rfl, rfl, rfl, rfl, rfl, rfl, ?_⟩
  intro t h1 h2 h3 h4
  match t with
  | none => rfl
  | some n =>
      simp only [Ne, Option.some.injEq] at h1 h2 h3 h4
      simp [resolve_mixer_type, vm_type_to_profile, h1, h2, h3, h4]

/-- C6 witness: deviceType 99 and an absent deviceType both resolve to
"banana". -/
theorem claim_C6_witness :
    resolve_mixer_type "auto" (some 99) = "banana" ∧
    resolve_mixer_type "auto" none = "banana" :=
  ⟨claim_C6_resolve_profiles.2.2.2.2.2.2.2.2.2 (some 99)
      (by decide) (by decide) (by decide) (by decide),
   claim_C6_resolve_profiles.2.2.2.2.2.2.2.2.2 none
      (by decide) (by decide) (by decide) (by decide)⟩

/-- C10: for an unrecognized or absent device type (none of 1, 2, 3, 6),
the strip channel range is (2*index, 2) for every strip index, including
indices at or past the default "banana" profile's hardware boundary. -/
theorem claim_C10_unknown_type_strip_range (t : Option Nat)
    (h1 : t ≠ some 1) (h2 : t ≠ some 2) (h3 : t ≠ some 3) (h6 : t ≠ some 6) :
    ∀ i : Int, strip_channel_range t i = (2 * i, 2) := by
  intro i
  simp only [strip_channel_range, h1, h2, h3, h6, if_false, or_self, if_neg,
    not_false_eq_true]
  exact Prod.ext (mul_comm i 2) rfl

/-- C10 witness: device types 99 and absent, at strip index 4 (past the
"banana" hardware boundary of 3), yield (8, 2), not an 8-wide range. -/
theorem claim_C10_witness :
    strip_channel_range (some 99) 4 = (8, 2) ∧
    strip_channel_range none 4 = (8, 2) :=
  ⟨(claim_C10_unknown_type_strip_range (some 99)
      (by decide) (by decide) (by decide) (by decide) 4).trans (by norm_num),
   (claim_C10_unknown_type_strip_range none
      (by decide) (by decide) (by decide) (by decide) 4).trans (by norm_num)⟩

/-- The channel-range rule as the spec words it: strips below the
profile's hardware count occupy 2 contiguous levels each, strips at or
past that boundary occupy 8 contiguous levels each after the hardware
block. -/
def stripRangeSpec (hw index : Int) : Int × Int :=
  if index < hw then (2 * index, 2) else (2 * hw + 8 * (index - hw), 8)

/-- C7: for each recognized device type the source's strip channel range
agrees with the spec's formula using that profile's hardware strip
count; the "potato" layout at strip index 5 yields (10, 8); and the bus
channel range is (8*index, 8) unconditionally. -/
theorem claim_C7_channel_ranges :
    (∀ i : Int, strip_channel_range (some 1) i =
        stripRangeSpec (standardProfile.hardware_strips : Int) i) ∧
    (∀ i : Int, strip_channel_range (some 2) i =
        stripRangeSpec (bananaProfile.hardware_strips : Int) i) ∧
    (∀ i : Int, strip_channel_range (some 3) i =
        stripRangeSpec (potatoProfile.hardware_strips : Int) i) ∧
    (∀ i : Int, strip_channel_range (some 6) i =
        stripRangeSpec (potatoProfile.hardware_strips : Int) i) ∧
    strip_channel_range (some 3) 5 = (10, 8) ∧
    (∀ i : Int, bus_channel_range i = (8 * i, 8)) := by
  refine ⟨?_, ?_, ?_, ?_, by decide, fun i => Prod.ext (mul_comm i 8) rfl⟩ <;>
    intro i <;>
    simp only [strip_channel_range, stripRangeSpec, standardProfile,
      bananaProfile, potatoProfile] <;>
    norm_num <;>
    split <;>
    exact Prod.ext (by ring) rfl

/-- Applying `listMax` to a non-empty list gives a value that is an element of the list and an
upper bound of it (Python `max`). -/
theorem listMax_spec (x : ℚ) (xs : List ℚ) :
    listMax (x :: xs) ∈ x :: xs ∧ ∀ y ∈ x :: xs, y ≤ listMax (x :: xs) := by
  induction xs generalizing x with
  | nil => simp [listMax]
  | cons y ys ih =>
    have e : listMax (x :: y :: ys) = listMax (max x y :: ys) := rfl
    obtain ⟨hmem, hub⟩ := ih (max x y)
    rw [e]
    constructor
    · rcases List.mem_cons.mp hmem with h | h
      · rcases max_choice x y with hx | hy
        · rw [h, hx]; exact List.mem_cons_self _ _
        · rw [h, hy]; exact List.mem_cons_of_mem _ (List.mem_cons_self _ _)
      · exact List.mem_cons_of_mem _ (List.mem_cons_of_mem _ h)
    · intro z hz
      rcases List.mem_cons.mp hz with h | h
      · subst h; exact le_trans (le_max_left _ _) (hub _ (List.mem_cons_self _ _))
      · rcases List.mem_cons.mp h with h' | h'
        · subst h'; exact le_trans (le_max_right _ _) (hub _ (List.mem_cons_self _ _))
        · exact hub _ (List.mem_cons_of_mem _ h')

theorem listMax_spec_of_ne_nil (l : List ℚ) (h : l ≠ []) :
    listMax l ∈ l ∧ ∀ y ∈ l, y ≤ listMax l := by
  match l, h with
  | x :: xs, _ => exact listMax_spec x xs

/-- C9: for every non-empty channel-index range (a start inside the
level array and a positive count), the reported level is the maximum
value across the levels of that (clipped) range — it is an element of
the slice and an upper bound of it, never an average — and the
strip/bus accessors report exactly this aggregate of the stored
levels, with no further conversion. -/
theorem claim_C9_level_is_max (levels : List ℚ) (base count : Int)
    (h0 : 0 ≤ base) (h1 : base < (levels.length : Int)) (h2 : 0 < count) :
    (level_from_range levels base count ∈
      (levels.drop base.toNat).take ((min (base + count) (levels.length : Int)) - base).toNat ∧
     ∀ x ∈ (levels.drop base.toNat).take
        ((min (base + count) (levels.length : Int)) - base).toNat,
       x ≤ level_from_range levels base count) ∧
    (∀ (s : RTSnapshot) (i : Int), get_input_level s i =
      level_from_range s.input_levels (strip_channel_range s.voicemeeter_type i).1
        (strip_channel_range s.voicemeeter_type i).2) ∧
    (∀ (s : RTSnapshot) (i : Int), get_output_level s i =
      level_from_range s.output_levels (bus_channel_range i).1 (bus_channel_range i).2) := by
  refine ⟨?_, fun s i => rfl, fun s i => rfl⟩
  have hnot : ¬(base < 0 ∨ (levels.length : Int) ≤ base) := by omega
  have hlt : base < min (base + count) (levels.length : Int) := by omega
  have hnot2 : ¬(min (base + count) (levels.length : Int) ≤ base) := not_le.mpr hlt
  have hres : level_from_range levels base count =
      listMax ((levels.drop base.toNat).take
        ((min (base + count) (levels.length : Int)) - base).toNat) := by
    rw [level_from_range, if_neg hnot, if_neg hnot2]
  have hne : (levels.drop base.toNat).take
      ((min (base + count) (levels.length : Int)) - base).toNat ≠ [] := by
    rw [← List.length_pos_iff_ne_nil, List.length_take, List.length_drop]
    have hb : (base.toNat : Int) = base := Int.toNat_of_nonneg h0
    omega
  rw [hres]
  exact listMax_spec_of_ne_nil _ hne

/-- C9 witness: over the slice [1, 5, 3] the reported level 5 is a
member and an upper bound. -/
theorem claim_C9_witness :
    level_from_range [(1 : ℚ), 5, 3] 0 3 ∈
      (([(1 : ℚ), 5, 3]).drop (0 : Int).toNat).take
        ((min ((0 : Int) + 3) (([(1 : ℚ), 5, 3]).length : Int)) - 0).toNat ∧
    ∀ x ∈ (([(1 : ℚ), 5, 3]).drop (0 : Int).toNat).take
        ((min ((0 : Int) + 3) (([(1 : ℚ), 5, 3]).length : Int)) - 0).toNat,
      x ≤ level_from_range [(1 : ℚ), 5, 3] 0 3 :=
  (claim_C9_level_is_max [(1 : ℚ), 5, 3] 0 3 (by decide) (by decide) (by decide)).1

/-- C8: one iteration of the receive loop on a datagram that is shorter
than 28 bytes, lacks the "VBAN" signature, or whose protocol class or
service subtype is not service/telemetry leaves the snapshot unchanged;
consequently folding the loop over any interleaving of datagrams gives
the same snapshot as folding over just the frames that pass the header
check — garbage never corrupts the snapshot. -/
theorem claim_C8_garbage_discarded :
    (∀ (s : RTSnapshot) (data : List Nat),
      data.length < 28 ∨ data.take 4 ≠ vbanSignature ∨
        ¬(byteAt data 4 &&& 0xE0 = 0x60 ∧ byteAt data 6 = 33) →
      listen_step s data = s) ∧
    (∀ (s : RTSnapshot) (packets : List (List Nat)),
      List.foldl listen_step s packets =
        List.foldl listen_step s (packets.filter vban_frame_ok)) := by
  constructor
  · intro s data h
    have hok : vban_frame_ok data = false := by
      rw [vban_frame_ok]
      rcases h with h | h | h
      · simp [Nat.not_le.mpr h]
      · simp [h]
      · rw [Classical.not_and_iff_or_not_not] at h
        rcases h with h | h <;> simp [h]
    rw [listen_step_eq, hok, if_neg (by simp)]
  · intro s packets
    induction packets generalizing s with
    | nil => rfl
    | cons p ps ih =>
      by_cases hp : vban_frame_ok p
      · rw [List.filter_cons_of_pos hp]
        exact ih _
      · rw [List.filter_cons_of_neg hp, List.foldl_cons,
          listen_step_eq, if_neg hp]
        exact ih s

/-- C8 witness: a concrete 3-byte garbage datagram leaves the initial
snapshot unchanged. -/
theorem claim_C8_witness :
    listen_step initSnapshot [1, 2, 3] = initSnapshot :=
  claim_C8_garbage_discarded.1 initSnapshot [1, 2, 3] (Or.inl (by decide))

/-- C4: a payload of at least 280 bytes carries, after the level arrays
ending at offset 212, a 4-byte reserved field (offsets 212..216), then
8 little-endian u32 strip-state bitmasks (216..248), then 8
little-endian u32 bus-state bitmasks (248..280), which decode stores;
a payload of length in [212, 280) decodes successfully (deviceType and
levels update) but leaves stripStateBits and busStateBits at their
previous values. -/
theorem claim_C4_state_bitmask_tail (data : List Nat) (s : RTSnapshot) :
    (280 ≤ data.length →
      (parse_rt_packet data s).strip_states =
        (List.range 8).map (fun i => readU32LE data (216 + 4 * i)) ∧
      (parse_rt_packet data s).bus_states =
        (List.range 8).map (fun i => readU32LE data (248 + 4 * i))) ∧
    (212 ≤ data.length → data.length < 280 →
      (parse_rt_packet data s).voicemeeter_type = some (byteAt data 0) ∧
      (parse_rt_packet data s).strip_states = s.strip_states ∧
      (parse_rt_packet data s).bus_states = s.bus_states) := by
  constructor
  · intro h
    have h1 : ¬ data.length < 212 := by omega
    have h2 : 212 + 4 + 32 + 32 ≤ data.length := by omega
    simp [parse_rt_packet, h1, h2]
  · intro h h'
    have h1 : ¬ data.length < 212 := by omega
    have h2 : ¬ (212 + 4 + 32 + 32 ≤ data.length) := by omega
    simp [parse_rt_packet, h1, h2]

theorem padTo16_length (stream : List Nat) : (padTo16 stream).length = 16 := by
  simp only [padTo16, List.length_append, List.length_take, List.length_replicate]
  omega

theorem build_header_shape (p a1 a2 f : Nat) (stream : List Nat) (c : Int) :
    build_header p a1 a2 f stream c =
      (vbanSignature ++ [p, a1, a2, f]) ++
        (padTo16 stream ++ u32LEBytes c.toNat) := by
  simp [build_header, List.append_assoc]

theorem build_header_length (p a1 a2 f : Nat) (stream : List Nat) (c : Int) :
    (build_header p a1 a2 f stream c).length = 28 := by
  simp [build_header, vbanSignature, u32LEBytes, padTo16_length]

theorem byteAt_append_right (l1 l2 : List Nat) (n : Nat) (h : l1.length ≤ n) :
    byteAt (l1 ++ l2) n = byteAt l2 (n - l1.length) :=
  List.getD_append_right l1 l2 0 n h

theorem readU32LE_u32LEBytes (n : Nat) (h : n < 4294967296) :
    readU32LE (u32LEBytes n) 0 = n := by
  simp only [readU32LE, u32LEBytes, byteAt, List.getD_cons_zero, List.getD_cons_succ]
  omega

theorem build_header_drop24 (p a1 a2 f : Nat) (stream : List Nat) (c : Int) :
    (build_header p a1 a2 f stream c).drop 24 = u32LEBytes c.toNat := by
  rw [build_header_shape, ← List.append_assoc, List.drop_left']
  simp [vbanSignature, padTo16_length]

theorem build_header_byteAt_past24 (p a1 a2 f : Nat) (stream : List Nat) (c : Int)
    (k : Nat) :
    byteAt (build_header p a1 a2 f stream c) (24 + k) = byteAt (u32LEBytes c.toNat) k := by
  rw [build_header_shape, ← List.append_assoc, byteAt_append_right]
  · congr 1
    simp [vbanSignature, padTo16_length]
  · simp [vbanSignature, padTo16_length]

/-- C5: every encoded header is exactly 28 bytes, starts with the
4-byte "VBAN" signature, carries the stream name truncated to 16 bytes
and right-padded with zero bytes in bytes 8..24, and the frame counter
little-endian in bytes 24..28; text-command packets use protocol byte
0x40 and format byte 0x10 and append the command text; registration
packets use protocol byte 0x60, put 32 in auxByte2 and the keep-alive
timeout (0-255) in the format byte, and carry no payload after the
header. -/
theorem claim_C5_header_encoding (stream cmd : List Nat) (c : Int) (timeout : Nat) :
    (∀ p a1 a2 f : Nat,
      (build_header p a1 a2 f stream c).length = 28 ∧
      (build_header p a1 a2 f stream c).take 4 = vbanSignature ∧
      ((build_header p a1 a2 f stream c).drop 8).take 16 =
        stream.take 16 ++ List.replicate (16 - (stream.take 16).length) 0 ∧
      (build_header p a1 a2 f stream c).drop 24 = u32LEBytes c.toNat ∧
      (0 ≤ c → c < 4294967296 →
        (readU32LE (build_header p a1 a2 f stream c) 24 : Int) = c)) ∧
    ((sender_send ⟨stream, c⟩ (.text cmd)).1 =
        build_header 0x40 0 0 0x10 stream c ++ cmd ∧
      byteAt (build_header 0x40 0 0 0x10 stream c) 4 = 0x40 ∧
      byteAt (build_header 0x40 0 0 0x10 stream c) 7 = 0x10) ∧
    ((sender_send ⟨stream, c⟩ (.registration timeout)).1 =
        build_header 0x60 0 32 (timeout % 256) stream c ∧
      (sender_send ⟨stream, c⟩ (.registration timeout)).1.length = 28 ∧
      byteAt (sender_send ⟨stream, c⟩ (.registration timeout)).1 4 = 0x60 ∧
      byteAt (sender_send ⟨stream, c⟩ (.registration timeout)).1 6 = 32 ∧
      (timeout ≤ 255 →
        byteAt (sender_send ⟨stream, c⟩ (.registration timeout)).1 7 = timeout)) := by
  have hb4 : ∀ p a1 a2 f : Nat, byteAt (build_header p a1 a2 f stream c) 4 = p := by
    intro p a1 a2 f
    rw [build_header_shape, List.append_assoc, vbanSignature]
    rfl
  have hb6 : ∀ p a1 a2 f : Nat, byteAt (build_header p a1 a2 f stream c) 6 = a2 := by
    intro p a1 a2 f
    rw [build_header_shape, List.append_assoc, vbanSignature]
    rfl
  have hb7 : ∀ p a1 a2 f : Nat, byteAt (build_header p a1 a2 f stream c) 7 = f := by
    intro p a1 a2 f
    rw [build_header_shape, List.append_assoc, vbanSignature]
    rfl
  refine ⟨fun p a1 a2 f => ⟨build_header_length p a1 a2 f stream c, ?_, ?_, ?_, ?_⟩,
    ⟨rfl, hb4 _ _ _ _, hb7 _ _ _ _⟩,
    ⟨rfl, build_header_length _ _ _ _ stream c, hb4 _ _ _ _, hb6 _ _ _ _, ?_⟩⟩
  · rw [build_header_shape, List.append_assoc]
    exact List.take_left' (by rfl)
  · rw [build_header_shape, List.drop_left' (by simp [vbanSignature]),
      List.take_left' (padTo16_length stream)]
    rfl
  · exact build_header_drop24 p a1 a2 f stream c
  · intro hc0 hc
    have h0 := build_header_byteAt_past24 p a1 a2 f stream c 0
    have h1 := build_header_byteAt_past24 p a1 a2 f stream c 1
    have h2 := build_header_byteAt_past24 p a1 a2 f stream c 2
    have h3 := build_header_byteAt_past24 p a1 a2 f stream c 3
    have hru : readU32LE (build_header p a1 a2 f stream c) 24 =
        readU32LE (u32LEBytes c.toNat) 0 := by
      simp only [readU32LE]
      rw [show 24 + 1 = 24 + 1 from rfl, show 24 + 2 = 24 + 2 from rfl]
      rw [h0, show (24 : Nat) + 1 = 24 + 1 from rfl]
      rw [h1, h2, h3]
    have htn : c.toNat < 4294967296 := by omega
    rw [hru, readU32LE_u32LEBytes _ htn]
    omega
  · intro ht
    rw [show (sender_send ⟨stream, c⟩ (.registration timeout)).1 =
        build_header 0x60 0 32 (timeout % 256) stream c from rfl, hb7]
    omega

/-- C5 witness: the registration packet for stream bytes [65] (ASCII
"A"), counter 7, timeout 15 has byte 7 equal to 15, and the counter 7
is recovered little-endian from bytes 24..28 of the text header. -/
theorem claim_C5_witness :
    byteAt (sender_send ⟨[65], 7⟩ (PacketKind.registration 15)).1 7 = 15 ∧
    (readU32LE (build_header 0x40 0 0 0x10 [65] 7) 24 : Int) = 7 :=
  ⟨(claim_C5_header_encoding [65] [] 7 15).2.2.2.2.2.2 (by decide),
   ((claim_C5_header_encoding [65] [] 7 15).1 0x40 0 0 0x10).2.2.2.2
      (by decide) (by decide)⟩

/-- C4 witness: an all-ones 280-byte payload stores eight strip-state
masks of 0x01010101; an all-ones 212-byte payload leaves the initial
snapshot's bitmask arrays untouched. -/
theorem claim_C4_witness :
    (parse_rt_packet (List.replicate 280 1) initSnapshot).strip_states =
      List.replicate 8 16843009 ∧
    (parse_rt_packet (List.replicate 212 1) initSnapshot).strip_states =
      initSnapshot.strip_states ∧
    (parse_rt_packet (List.replicate 212 1) initSnapshot).bus_states =
      initSnapshot.bus_states := by
  refine ⟨?_, ?_, ?_⟩
  · exact (((claim_C4_state_bitmask_tail (List.replicate 280 1) initSnapshot).1
      (by rw [List.length_replicate])).1).trans (by decide)
  · exact ((claim_C4_state_bitmask_tail (List.replicate 212 1) initSnapshot).2
      (by rw [List.length_replicate]) (by rw [List.length_replicate]; omega)).2.1
  · exact ((claim_C4_state_bitmask_tail (List.replicate 212 1) initSnapshot).2
      (by rw [List.length_replicate]) (by rw [List.length_replicate]; omega)).2.2

/-! ## C1 (corrected): storage of levels -/

/-- A 212-byte payload whose first input-level field holds the raw
centibel value 100 (bytes 16..18 little-endian). -/
def c1Payload : List Nat :=
  List.replicate 16 0 ++ [100, 0] ++ List.replicate 194 0

theorem parse_input_levels_eq (data : List Nat) (s : RTSnapshot)
    (h : ¬ data.length < 212) :
    (parse_rt_packet data s).input_levels =
      (List.range 34).map
        (fun i => ((readI16LE data (16 + 2 * i) : Int) : ℚ) * (1 / 100)) := by
  have e : (parse_rt_packet data s).input_levels =
      ((List.range 34).map fun i => readI16LE data (16 + 2 * i)).map
        (fun (l : Int) => (l : ℚ) * (1 / 100)) := by
    unfold parse_rt_packet
    rw [if_neg h]
  rw [e, List.map_map]
  rfl

theorem parse_output_levels_eq (data : List Nat) (s : RTSnapshot)
    (h : ¬ data.length < 212) :
    (parse_rt_packet data s).output_levels =
      (List.range 64).map
        (fun i => ((readI16LE data (84 + 2 * i) : Int) : ℚ) * (1 / 100)) := by
  have e : (parse_rt_packet data s).output_levels =
      ((List.range 64).map fun i => readI16LE data (84 + 2 * i)).map
        (fun (l : Int) => (l : ℚ) * (1 / 100)) := by
    unfold parse_rt_packet
    rw [if_neg h]
  rw [e, List.map_map]
  rfl

theorem parse_voicemeeter_type_eq (data : List Nat) (s : RTSnapshot)
    (h : ¬ data.length < 212) :
    (parse_rt_packet data s).voicemeeter_type = some (byteAt data 0) := by
  unfold parse_rt_packet
  rw [if_neg h]

/-- C1 counterexample: for this payload the raw first input level is
100 centibels, but the snapshot stores 1 (the value already divided by
100), not the raw integer 100 — refuting "the snapshot stores these
levels as raw centibel integers, and the conversion to decibels
happens only when a level is read through the accessor". -/
theorem claim_C1_counterexample :
    c1Payload.length = 212 ∧
    readI16LE c1Payload 16 = 100 ∧
    (parse_rt_packet c1Payload initSnapshot).input_levels.getD 0 0 = 1 ∧
    (parse_rt_packet c1Payload initSnapshot).input_levels.getD 0 0 ≠
      ((readI16LE c1Payload 16 : Int) : ℚ) := by
  have hlen : c1Payload.length = 212 := by decide
  have hraw : readI16LE c1Payload 16 = 100 := by decide
  have hst : (parse_rt_packet c1Payload initSnapshot).input_levels.getD 0 0 =
      ((readI16LE c1Payload 16 : Int) : ℚ) * (1 / 100) := by
    rw [parse_input_levels_eq c1Payload initSnapshot (by omega)]
    rfl
  refine ⟨hlen, hraw, ?_, ?_⟩ <;> rw [hst, hraw] <;> norm_num

/-- C1 as amended: for every payload of length at least 212, decode
reads byte 0 as deviceType, bytes 16..84 as 34 little-endian signed
16-bit input levels and bytes 84..212 as 64 little-endian signed
16-bit output levels, but the snapshot stores each level already
converted to decibels (the raw centibel value times 1/100) at parse
time, and the level accessors aggregate the stored values without any
further division. -/
theorem claim_C1_amended (data : List Nat) (s : RTSnapshot) (h : 212 ≤ data.length) :
    (parse_rt_packet data s).voicemeeter_type = some (byteAt data 0) ∧
    (parse_rt_packet data s).input_levels =
      (List.range 34).map (fun i => ((readI16LE data (16 + 2 * i) : Int) : ℚ) * (1 / 100)) ∧
    (parse_rt_packet data s).output_levels =
      (List.range 64).map (fun i => ((readI16LE data (84 + 2 * i) : Int) : ℚ) * (1 / 100)) ∧
    (∀ (snap : RTSnapshot) (idx : Int),
      get_input_level snap idx =
        level_from_range snap.input_levels
          (strip_channel_range snap.voicemeeter_type idx).1
          (strip_channel_range snap.voicemeeter_type idx).2) := by
  have h' : ¬ data.length < 212 := by omega
  exact ⟨parse_voicemeeter_type_eq data s h', parse_input_levels_eq data s h',
    parse_output_levels_eq data s h', fun snap idx => rfl⟩

/-- C1 witness: the all-zero 212-byte payload yields deviceType 0 and
a stored first input level of 0 dB. -/
theorem claim_C1_witness :
    (parse_rt_packet (List.replicate 212 0) initSnapshot).voicemeeter_type = some 0 ∧
    (parse_rt_packet (List.replicate 212 0) initSnapshot).input_levels.getD 0 0 = 0 := by
  have h := claim_C1_amended (List.replicate 212 0) initSnapshot
    (by rw [List.length_replicate])
  refine ⟨h.1.trans (by decide), ?_⟩
  rw [h.2.1]
  have e : ((List.range 34).map
      (fun i => ((readI16LE (List.replicate 212 0) (16 + 2 * i) : Int) : ℚ) *
        (1 / 100))).getD 0 0 =
      ((readI16LE (List.replicate 212 0) 16 : Int) : ℚ) * (1 / 100) := rfl
  rw [e, show readI16LE (List.replicate 212 0) 16 = 0 by decide]
  norm_num

/-! ## C2 (corrected): frame counter arithmetic -/

/-- C2 counterexample: a sender whose counter is 4294967294 (= 2^32-2,
below the claimed wrap point) encodes one packet and its counter
becomes 0, not 4294967295 — the counter is maintained modulo
0xFFFFFFFF = 2^32-1, so it does not increment by exactly 1 up to
2^32-1 and never wraps from 2^32-1 to 0. -/
theorem claim_C2_counterexample :
    (sender_send ⟨[], 4294967294⟩ (PacketKind.registration 15)).2.frame_counter = 0 ∧
    (0 : Int) ≠ 4294967294 + 1 ∧
    next_frame_counter 4294967295 = 1 ∧
    (1 : Int) ≠ 0 := by
  refine ⟨?_, by decide, by decide, by decide⟩
  show next_frame_counter 4294967294 = 0
  decide

/-- C2 as amended: for every sender state with a counter in
[0, 2^32-1) and either packet kind (text command or registration), the
counter after encoding is the old counter plus 1 modulo 2^32-1: it is
never negative, stays below 2^32-1, increments by exactly 1 while
below 2^32-2, and wraps from 2^32-2 (not 2^32-1) to 0. -/
theorem claim_C2_amended (st : SenderState) (k : PacketKind)
    (h0 : 0 ≤ st.frame_counter) (h1 : st.frame_counter < 4294967295) :
    (sender_send st k).2.frame_counter = (st.frame_counter + 1) % 4294967295 ∧
    0 ≤ (sender_send st k).2.frame_counter ∧
    (sender_send st k).2.frame_counter < 4294967295 ∧
    (st.frame_counter < 4294967294 →
      (sender_send st k).2.frame_counter = st.frame_counter + 1) ∧
    (st.frame_counter = 4294967294 → (sender_send st k).2.frame_counter = 0) := by
  have hh : (sender_send st k).2.frame_counter =
      (st.frame_counter + 1) % 4294967295 := by
    cases k <;> rfl
  refine ⟨hh, ?_, ?_, fun hlt => ?_, fun heq => ?_⟩ <;> rw [hh] <;> omega

/-- C2 witness: from counter 5, sending a text command gives counter 6,
and from counter 5 a registration also gives 6. -/
theorem claim_C2_witness :
    (sender_send ⟨[], 5⟩ (PacketKind.text [65])).2.frame_counter = 6 ∧
    (sender_send ⟨[], 5⟩ (PacketKind.registration 15)).2.frame_counter = 6 :=
  ⟨((claim_C2_amended ⟨[], 5⟩ (PacketKind.text [65])
      (by decide) (by decide)).2.2.2.1 (by decide)).trans (by decide),
   ((claim_C2_amended ⟨[], 5⟩ (PacketKind.registration 15)
      (by decide) (by decide)).2.2.2.1 (by decide)).trans (by decide)⟩

end VMRemote
